import Mathlib

/-!
Verification of `src/deps/varint/util/dimensionPairMap.py`, a one-shot
generator that prints C macro definitions and an exhaustive enumeration of
packed (row-width, col-width, sparse) dimension-pair codes.

The packing/unpacking macros emitted by the generator are embedded as Lean
functions over `Nat` (the generator only ever instantiates them at small
non-negative integers), and the generation loop is embedded both as a
structured list of enumeration entries and as the exact list of text lines
the script prints.
-/

namespace DimensionPairMap

/-- Emitted macro `VARINT_DIMENSION_PAIR_PAIR(x, y, sparse)`:
`(((x) << 4) | ((y - 1) << 1) | (sparse))`. -/
def VARINT_DIMENSION_PAIR_PAIR (x y sparse : Nat) : Nat :=
  (x <<< 4) ||| ((y - 1) <<< 1) ||| sparse

/-- Emitted macro `VARINT_DIMENSION_PAIR_WIDTH_ROW_COUNT(dim)`: `((dim) >> 4)`. -/
def VARINT_DIMENSION_PAIR_WIDTH_ROW_COUNT (dim : Nat) : Nat :=
  dim >>> 4

/-- Emitted macro `VARINT_DIMENSION_PAIR_WIDTH_COL_COUNT(dim)`:
`((((dim) >> 1) & 0x03) + 1)`. -/
def VARINT_DIMENSION_PAIR_WIDTH_COL_COUNT (dim : Nat) : Nat :=
  ((dim >>> 1) &&& 0x03) + 1

/-- Emitted macro `VARINT_DIMENSION_PAIR_IS_SPARSE(dim)`: `((dim) & 0x01)`. -/
def VARINT_DIMENSION_PAIR_IS_SPARSE (dim : Nat) : Nat :=
  dim &&& 0x01

/-- One generated enumeration entry, recording the loop variables, the
semantic value of the emitted `VARINT_DIMENSION_PAIR_PAIR` macro call, and
the two annotation numbers `(1 << (x * 8)) - 1` and `(1 << (y * 8)) - 1`
computed by the generator. -/
structure EnumEntry where
  x : Nat
  y : Nat
  sparse : Nat
  value : Nat
  maxRow : Nat
  maxCol : Nat
deriving DecidableEq, Repr

/-- The entry emitted for a given `(x, y, sparse)` in the generation loop. -/
def entryFor (x y sparse : Nat) : EnumEntry :=
  { x := x
    y := y
    sparse := sparse
    value := VARINT_DIMENSION_PAIR_PAIR x y sparse
    maxRow := (1 <<< (x * 8)) - 1
    maxCol := (1 <<< (y * 8)) - 1 }

/-- The generation loop: `for x in range(0, 9): for y in range(1, 9):`
emitting the dense (sparse=0) entry and then the sparse (sparse=1) entry. -/
def genEntries : List EnumEntry :=
  (List.range' 0 9).flatMap fun x =>
    (List.range' 1 8).flatMap fun y =>
      [entryFor x y 0, entryFor x y 1]

/-- The `DENSE` / `SPRSE` name fragment chosen by the generator. -/
def tagOf (sparse : Nat) : String :=
  if sparse = 0 then "DENSE" else "SPRSE"

/-- The enumeration line printed for a given `(x, y, sparse)`. -/
def constLine (x y sparse : Nat) : String :=
  s!"VARINT_DIMENSION_PAIR_{tagOf sparse}_{x}_{y} = VARINT_DIMENSION_PAIR_PAIR({x}, {y}, {sparse}), /* up to {(1 <<< (x * 8)) - 1} x {(1 <<< (y * 8)) - 1} */"

/-- The lines printed before the enumeration body: the pack macro, the three
unpack macros, the blank line ending the triple-quoted string plus the blank
`print()`, and the enum opener. -/
def headerLines : List String :=
  [ "#define VARINT_DIMENSION_PAIR_PAIR(x, y, sparse) (((x) << 4) | ((y - 1) << 1) | (sparse))"
  , "#define VARINT_DIMENSION_PAIR_WIDTH_ROW_COUNT(dim) ((dim) >> 4)"
  , "#define VARINT_DIMENSION_PAIR_WIDTH_COL_COUNT(dim) ((((dim) >> 1) & 0x03) + 1)"
  , "#define VARINT_DIMENSION_PAIR_IS_SPARSE(dim) ((dim) & 0x01)"
  , ""
  , ""
  , "typedef enum varintDimensionPair \x7b" ]

/-- Every line the script prints, in order. -/
def outputLines : List String :=
  headerLines ++
  ((List.range' 0 9).flatMap fun x =>
    (List.range' 1 8).flatMap fun y =>
      [constLine x y 0, constLine x y 1]) ++
  ["\x7d varintDimensionPair;"]

/-- Linear form of the pack macro on the generator's domain: the three bit
fields never overlap, so the bitwise ORs act as addition. -/
lemma pack_linear : ∀ x ≤ 8, ∀ y ≤ 8, 1 ≤ y → ∀ s ≤ 1,
    VARINT_DIMENSION_PAIR_PAIR x y s = 16 * x + 2 * (y - 1) + s := by
  decide

/-- The three unpack accessors on a packed value from the generator's
domain: row and sparse are recovered exactly, the column accessor sees
(y - 1) modulo 4. -/
lemma unpack_on_domain : ∀ x ≤ 8, ∀ y ≤ 8, 1 ≤ y → ∀ s ≤ 1,
    VARINT_DIMENSION_PAIR_WIDTH_ROW_COUNT (VARINT_DIMENSION_PAIR_PAIR x y s) = x ∧
    VARINT_DIMENSION_PAIR_IS_SPARSE (VARINT_DIMENSION_PAIR_PAIR x y s) = s ∧
    VARINT_DIMENSION_PAIR_WIDTH_COL_COUNT (VARINT_DIMENSION_PAIR_PAIR x y s) =
      (y - 1) % 4 + 1 := by
  decide

/-- Claim C1: for every rowWidth in [0,8], colWidth in [1,4], sparse in {0,1},
the three unpack accessors applied to the packed value recover exactly the
original rowWidth, colWidth and sparse. -/
theorem C1_roundtrip_within_capacity :
    ∀ x ≤ 8, ∀ y ≤ 4, 1 ≤ y → ∀ s ≤ 1,
      VARINT_DIMENSION_PAIR_WIDTH_ROW_COUNT (VARINT_DIMENSION_PAIR_PAIR x y s) = x ∧
      VARINT_DIMENSION_PAIR_WIDTH_COL_COUNT (VARINT_DIMENSION_PAIR_PAIR x y s) = y ∧
      VARINT_DIMENSION_PAIR_IS_SPARSE (VARINT_DIMENSION_PAIR_PAIR x y s) = s := by
  decide

/-- Witness for C1 at rowWidth = 2, colWidth = 3, sparse = 1. -/
theorem C1_roundtrip_within_capacity_witness :
    VARINT_DIMENSION_PAIR_WIDTH_ROW_COUNT (VARINT_DIMENSION_PAIR_PAIR 2 3 1) = 2 ∧
    VARINT_DIMENSION_PAIR_WIDTH_COL_COUNT (VARINT_DIMENSION_PAIR_PAIR 2 3 1) = 3 ∧
    VARINT_DIMENSION_PAIR_IS_SPARSE (VARINT_DIMENSION_PAIR_PAIR 2 3 1) = 1 :=
  C1_roundtrip_within_capacity 2 (by decide) 3 (by decide) (by decide) 1 (by decide)

/-- Claim C2, counterexample: the packed value for (0, 5, 0) is 8 and the
packed value for (0, 1, 0) is 0, so pack(0,5,0) does NOT equal pack(0,1,0):
the emitted pack macro applies no 2-bit mask to (colWidth - 1). -/
theorem C2_counterexample :
    VARINT_DIMENSION_PAIR_PAIR 0 5 0 = 8 ∧
    VARINT_DIMENSION_PAIR_PAIR 0 1 0 = 0 ∧
    VARINT_DIMENSION_PAIR_PAIR 0 5 0 ≠ VARINT_DIMENSION_PAIR_PAIR 0 1 0 := by
  decide

/-- Claim C2 as amended: for every colWidth in [5,8], rowWidth in [0,8] and
sparse in {0,1}, the packed value for colWidth exceeds the packed value for
colWidth - 4 by exactly 8 (so the two packed values are always distinct);
the aliasing with colWidth - 4 occurs only through the col-width accessor,
which returns colWidth - 4 on both packed values. -/
theorem C2_amended_no_pack_collision :
    ∀ x ≤ 8, ∀ y ≤ 8, 5 ≤ y → ∀ s ≤ 1,
      VARINT_DIMENSION_PAIR_PAIR x y s = VARINT_DIMENSION_PAIR_PAIR x (y - 4) s + 8 ∧
      VARINT_DIMENSION_PAIR_PAIR x y s ≠ VARINT_DIMENSION_PAIR_PAIR x (y - 4) s ∧
      VARINT_DIMENSION_PAIR_WIDTH_COL_COUNT (VARINT_DIMENSION_PAIR_PAIR x y s) =
        VARINT_DIMENSION_PAIR_WIDTH_COL_COUNT (VARINT_DIMENSION_PAIR_PAIR x (y - 4) s) ∧
      VARINT_DIMENSION_PAIR_WIDTH_COL_COUNT (VARINT_DIMENSION_PAIR_PAIR x y s) = y - 4 := by
  intro x hx y hy h5 s hs
  have hp1 := pack_linear x hx y hy (by omega) s hs
  have hp2 := pack_linear x hx (y - 4) (by omega) (by omega) s hs
  have hu1 := unpack_on_domain x hx y hy (by omega) s hs
  have hu2 := unpack_on_domain x hx (y - 4) (by omega) (by omega) s hs
  refine ⟨by rw [hp1, hp2]; omega, by rw [hp1, hp2]; omega, ?_, ?_⟩
  · rw [hu1.2.2, hu2.2.2]; omega
  · rw [hu1.2.2]; omega

/-- Witness for the amended C2 at rowWidth = 0, colWidth = 5, sparse = 0. -/
theorem C2_amended_no_pack_collision_witness :
    VARINT_DIMENSION_PAIR_PAIR 0 5 0 = VARINT_DIMENSION_PAIR_PAIR 0 1 0 + 8 ∧
    VARINT_DIMENSION_PAIR_PAIR 0 5 0 ≠ VARINT_DIMENSION_PAIR_PAIR 0 1 0 ∧
    VARINT_DIMENSION_PAIR_WIDTH_COL_COUNT (VARINT_DIMENSION_PAIR_PAIR 0 5 0) =
      VARINT_DIMENSION_PAIR_WIDTH_COL_COUNT (VARINT_DIMENSION_PAIR_PAIR 0 1 0) ∧
    VARINT_DIMENSION_PAIR_WIDTH_COL_COUNT (VARINT_DIMENSION_PAIR_PAIR 0 5 0) = 1 :=
  C2_amended_no_pack_collision 0 (by decide) 5 (by decide) (by decide) 0 (by decide)

/-- Claim C3: packing is injective over the domain rowWidth in [0,8],
colWidth in [1,4], sparse in {0,1}. -/
theorem C3_pack_injective_small_domain :
    ∀ x1 ≤ 8, ∀ y1 ≤ 4, 1 ≤ y1 → ∀ s1 ≤ 1, ∀ x2 ≤ 8, ∀ y2 ≤ 4, 1 ≤ y2 → ∀ s2 ≤ 1,
      VARINT_DIMENSION_PAIR_PAIR x1 y1 s1 = VARINT_DIMENSION_PAIR_PAIR x2 y2 s2 →
      x1 = x2 ∧ y1 = y2 ∧ s1 = s2 := by
  intro x1 hx1 y1 hy1 h1 s1 hs1 x2 hx2 y2 hy2 h2 s2 hs2 heq
  rw [pack_linear x1 hx1 y1 (by omega) h1 s1 hs1,
      pack_linear x2 hx2 y2 (by omega) h2 s2 hs2] at heq
  omega

/-- Witness for C3 at the pair of triples (2, 3, 1) and (2, 3, 1). -/
theorem C3_pack_injective_small_domain_witness :
    (2 : Nat) = 2 ∧ (3 : Nat) = 3 ∧ (1 : Nat) = 1 :=
  C3_pack_injective_small_domain 2 (by decide) 3 (by decide) (by decide) 1 (by decide)
    2 (by decide) 3 (by decide) (by decide) 1 (by decide) rfl

/-- Claim C4: the emitted pack macro line and the three emitted unpack macro
lines are exactly the ones printed by the script, and the functions they
denote compute (x << 4) | ((y - 1) << 1) | sparse, packed >> 4,
((packed >> 1) & 0x03) + 1, and packed & 0x01 on every input. -/
theorem C4_emitted_macros :
    (headerLines.get? 0 =
        some "#define VARINT_DIMENSION_PAIR_PAIR(x, y, sparse) (((x) << 4) | ((y - 1) << 1) | (sparse))" ∧
     headerLines.get? 1 =
        some "#define VARINT_DIMENSION_PAIR_WIDTH_ROW_COUNT(dim) ((dim) >> 4)" ∧
     headerLines.get? 2 =
        some "#define VARINT_DIMENSION_PAIR_WIDTH_COL_COUNT(dim) ((((dim) >> 1) & 0x03) + 1)" ∧
     headerLines.get? 3 =
        some "#define VARINT_DIMENSION_PAIR_IS_SPARSE(dim) ((dim) & 0x01)") ∧
    ∀ x y sparse dim : Nat,
      VARINT_DIMENSION_PAIR_PAIR x y sparse = (x <<< 4) ||| ((y - 1) <<< 1) ||| sparse ∧
      VARINT_DIMENSION_PAIR_WIDTH_ROW_COUNT dim = dim >>> 4 ∧
      VARINT_DIMENSION_PAIR_WIDTH_COL_COUNT dim = ((dim >>> 1) &&& 0x03) + 1 ∧
      VARINT_DIMENSION_PAIR_IS_SPARSE dim = dim &&& 0x01 :=
  ⟨⟨rfl, rfl, rfl, rfl⟩, fun _ _ _ _ => ⟨rfl, rfl, rfl, rfl⟩⟩

set_option maxRecDepth 8000 in
/-- Claim C5: every generated enumeration entry is annotated with maximum
row count 2^(8·rowWidth) − 1 and maximum column count 2^(8·colWidth) − 1,
in exact integer arithmetic (0 for rowWidth = 0, 2^64 − 1 for width 8). -/
theorem C5_annotation_values :
    ∀ e ∈ genEntries, e.maxRow = 2 ^ (8 * e.x) - 1 ∧ e.maxCol = 2 ^ (8 * e.y) - 1 := by
  decide

/-- Witness for C5 at the entry for rowWidth = 8, colWidth = 8, sparse = 1. -/
theorem C5_annotation_values_witness :
    (entryFor 8 8 1).maxRow = 2 ^ (8 * (entryFor 8 8 1).x) - 1 ∧
    (entryFor 8 8 1).maxCol = 2 ^ (8 * (entryFor 8 8 1).y) - 1 :=
  C5_annotation_values (entryFor 8 8 1) (by decide)

/-- Claim C6: the generator produces, for rowWidth = 2, colWidth = 3,
sparse = 1, the packed value 37 annotated "up to 65535 x 16777215", and for
rowWidth = 1, colWidth = 1, sparse = 0 the packed value 16 annotated
"up to 255 x 255"; the corresponding lines appear verbatim in the output. -/
theorem C6_end_to_end_entries :
    genEntries.get? 37 = some (entryFor 2 3 1) ∧
    entryFor 2 3 1 = ⟨2, 3, 1, 37, 65535, 16777215⟩ ∧
    constLine 2 3 1 =
      "VARINT_DIMENSION_PAIR_SPRSE_2_3 = VARINT_DIMENSION_PAIR_PAIR(2, 3, 1), /* up to 65535 x 16777215 */" ∧
    outputLines.get? 44 = some (constLine 2 3 1) ∧
    genEntries.get? 16 = some (entryFor 1 1 0) ∧
    entryFor 1 1 0 = ⟨1, 1, 0, 16, 255, 255⟩ ∧
    constLine 1 1 0 =
      "VARINT_DIMENSION_PAIR_DENSE_1_1 = VARINT_DIMENSION_PAIR_PAIR(1, 1, 0), /* up to 255 x 255 */" ∧
    outputLines.get? 23 = some (constLine 1 1 0) := by
  refine ⟨by decide, by decide, ?_, ?_, by decide, by decide, ?_, ?_⟩ <;> rfl

set_option maxRecDepth 8000 in
/-- Claim C7: the generated enumeration holds exactly 144 named constants:
for every rowWidth in [0,8] and colWidth in [1,8] exactly one dense
(sparse = 0) entry and exactly one sparse (sparse = 1) entry. -/
theorem C7_exactly_144_constants :
    genEntries.length = 144 ∧
    (∀ x ≤ 8, ∀ y ≤ 8, 1 ≤ y →
      genEntries.countP (fun e => e.x == x && e.y == y && e.sparse == 0) = 1 ∧
      genEntries.countP (fun e => e.x == x && e.y == y && e.sparse == 1) = 1) := by
  decide

/-- Witness for C7 at rowWidth = 2, colWidth = 3. -/
theorem C7_exactly_144_constants_witness :
    genEntries.countP (fun e => e.x == 2 && e.y == 3 && e.sparse == 0) = 1 ∧
    genEntries.countP (fun e => e.x == 2 && e.y == 3 && e.sparse == 1) = 1 :=
  C7_exactly_144_constants.2 2 (by decide) 3 (by decide) (by decide)

set_option maxRecDepth 8000 in
/-- Claim C8: entry number i of the enumeration comes from
rowWidth = i / 16 (outer loop ascending 0..8), colWidth = (i mod 16) / 2 + 1
(inner loop ascending 1..8), and sparse = i mod 2 (dense immediately before
sparse for each pair). -/
theorem C8_emission_order :
    ∀ i < 144, genEntries.get? i =
      some (entryFor (i / 16) (i % 16 / 2 + 1) (i % 2)) := by
  decide

/-- Witness for C8 at index 37 (rowWidth 2, colWidth 3, sparse). -/
theorem C8_emission_order_witness :
    genEntries.get? 37 = some (entryFor (37 / 16) (37 % 16 / 2 + 1) (37 % 2)) :=
  C8_emission_order 37 (by decide)

set_option maxRecDepth 8000 in
/-- Claim C9: all 144 generated constants have pairwise distinct values,
every value is at most 143, and the pack macro is injective over the full
generated domain rowWidth in [0,8], colWidth in [1,8], sparse in {0,1}. -/
theorem C9_pack_injective_full_domain :
    (genEntries.map (fun e => e.value)).Nodup ∧
    genEntries.all (fun e => e.value ≤ 143) = true ∧
    (∀ x1 ≤ 8, ∀ y1 ≤ 8, 1 ≤ y1 → ∀ s1 ≤ 1, ∀ x2 ≤ 8, ∀ y2 ≤ 8, 1 ≤ y2 → ∀ s2 ≤ 1,
      VARINT_DIMENSION_PAIR_PAIR x1 y1 s1 = VARINT_DIMENSION_PAIR_PAIR x2 y2 s2 →
      x1 = x2 ∧ y1 = y2 ∧ s1 = s2) := by
  refine ⟨by decide, by decide, ?_⟩
  intro x1 hx1 y1 hy1 h1 s1 hs1 x2 hx2 y2 hy2 h2 s2 hs2 heq
  rw [pack_linear x1 hx1 y1 hy1 h1 s1 hs1,
      pack_linear x2 hx2 y2 hy2 h2 s2 hs2] at heq
  omega

/-- Witness for C9 at the pair of triples (8, 8, 1) and (8, 8, 1). -/
theorem C9_pack_injective_full_domain_witness :
    (8 : Nat) = 8 ∧ (8 : Nat) = 8 ∧ (1 : Nat) = 1 :=
  C9_pack_injective_full_domain.2.2 8 (by decide) 8 (by decide) (by decide) 1 (by decide)
    8 (by decide) 8 (by decide) (by decide) 1 (by decide) rfl

/-- Claim C10: over the full domain rowWidth in [0,8], colWidth in [1,8],
sparse in {0,1}, the row accessor and the sparse accessor recover the
original fields exactly, and the col-width accessor returns
((colWidth - 1) mod 4) + 1, which equals colWidth - 4 when colWidth is in
[5,8]. -/
theorem C10_accessors_full_domain :
    ∀ x ≤ 8, ∀ y ≤ 8, 1 ≤ y → ∀ s ≤ 1,
      VARINT_DIMENSION_PAIR_WIDTH_ROW_COUNT (VARINT_DIMENSION_PAIR_PAIR x y s) = x ∧
      VARINT_DIMENSION_PAIR_IS_SPARSE (VARINT_DIMENSION_PAIR_PAIR x y s) = s ∧
      VARINT_DIMENSION_PAIR_WIDTH_COL_COUNT (VARINT_DIMENSION_PAIR_PAIR x y s) =
        (y - 1) % 4 + 1 ∧
      (5 ≤ y →
        VARINT_DIMENSION_PAIR_WIDTH_COL_COUNT (VARINT_DIMENSION_PAIR_PAIR x y s) = y - 4) := by
  intro x hx y hy h1 s hs
  have hu := unpack_on_domain x hx y hy h1 s hs
  exact ⟨hu.1, hu.2.1, hu.2.2, fun h5 => by rw [hu.2.2]; omega⟩

/-- Witness for C10 at rowWidth = 3, colWidth = 7, sparse = 1. -/
theorem C10_accessors_full_domain_witness :
    VARINT_DIMENSION_PAIR_WIDTH_ROW_COUNT (VARINT_DIMENSION_PAIR_PAIR 3 7 1) = 3 ∧
    VARINT_DIMENSION_PAIR_IS_SPARSE (VARINT_DIMENSION_PAIR_PAIR 3 7 1) = 1 ∧
    VARINT_DIMENSION_PAIR_WIDTH_COL_COUNT (VARINT_DIMENSION_PAIR_PAIR 3 7 1) =
      (7 - 1) % 4 + 1 ∧
    (5 ≤ 7 →
      VARINT_DIMENSION_PAIR_WIDTH_COL_COUNT (VARINT_DIMENSION_PAIR_PAIR 3 7 1) = 7 - 4) :=
  C10_accessors_full_domain 3 (by decide) 7 (by decide) (by decide) 1 (by decide)

end DimensionPairMap
